import Mathlib

/-!
Shallow embedding of `src/luawrapper.hpp` (class `LuaWrapper`), a header-only
wrapper around the Lua C API.  The wrapper's own code is translated directly;
the Lua C API functions it calls (`lua_pop`/`lua_settop`, `lua_pushnumber`,
`lua_isnumber`, `lua_tointeger`, `lua_gettable`, `lua_settable`, `lua_pcall`,
`luaL_ref`, `luaL_unref`, `lua_rawgeti`, ...) are external library code and are
embedded here following their reference semantics.

Modelling conventions:
* the Lua operand stack is a `List Value` with the TOP at the HEAD (so Lua
  index -1 is element 0 of the list);
* `lua_Number` is modelled as `Int`: no claim involves fractional arithmetic,
  and none of the wrapped operations perform arithmetic on numbers;
* Lua's string-to-number coercion (used by `lua_isnumber`/`lua_tonumber`) is
  modelled on its decimal-integer fragment (`str2num`);
* tables are association lists stored by value in their stack slot; the
  wrapper only manipulates metatable-less tables (`lua_newtable`), so
  metamethods are not modelled;
* Lua functions are identifiers (`Value.func fid`) resolved through an
  environment `LuaState.funcs` of mathematical semantics
  `List Value → Except String (List Value)`;
* `luaL_error` performs a longjmp that never returns; fallible operations
  therefore return `Except String _` with the exact message raised;
* `printf` diagnostics are collected in `LuaState.output`.
-/

namespace LuaWrapper

/-- Lua values (the tags of `enum luaType` in the source: nil, boolean,
light userdata, number, string, table, function, userdata, thread). -/
inductive Value where
  | nil
  | boolean (b : Bool)
  | lightuserdata (p : Nat)
  | number (n : Int)
  | str (s : String)
  | table (entries : List (Value × Value))
  | func (fid : Nat)
  | userdata (p : Nat)
  | thread (tid : Nat)

/-- The state held by the singleton `LuaWrapper`: the `lua_State` (operand
stack, global table, registry, loaded functions) together with the wrapper's
`m_status` member and the text printed with `printf`. -/
structure LuaState where
  stack : List Value
  globals : List (String × Value)
  registry : List (Int × Value)
  funcs : List (List Value → Except String (List Value))
  status : Option String
  output : List String

/-- A state with nothing on the stack, no globals, an empty registry and no
functions loaded. -/
def initState : LuaState :=
  { stack := [], globals := [], registry := [], funcs := [],
    status := none, output := [] }

/-- Resolve a Lua stack index (positive from the bottom, negative from the
top, as in the C API) to a position in the head-is-top list.  Out-of-range
indices resolve to `none` (the C API's "non-valid index", type `LUA_TNONE`). -/
def slotIdx (stack : List Value) (i : Int) : Option Nat :=
  if i < 0 then
    if i.natAbs ≤ stack.length then some (i.natAbs - 1) else none
  else
    if 0 < i ∧ i.toNat ≤ stack.length then some (stack.length - i.toNat)
    else none

/-- The value at a Lua stack index, `none` for a non-valid index. -/
def getValue (stack : List Value) (i : Int) : Option Value :=
  (slotIdx stack i).bind (fun j => stack[j]?)

/-- `lua_settop`: a nonnegative index becomes the new depth (growing pads
with nil); a negative index counts from the top. -/
def lua_settop (idx : Int) (s : LuaState) : LuaState :=
  let len : Int := s.stack.length
  let newtop : Int := if 0 ≤ idx then idx else len + idx + 1
  if newtop ≤ 0 then { s with stack := [] }
  else if newtop ≤ len then
    { s with stack := s.stack.drop (s.stack.length - newtop.toNat) }
  else
    { s with stack := List.replicate (newtop.toNat - s.stack.length) .nil ++ s.stack }

/-- The C macro `lua_pop(L,n)` is `lua_settop(L, -(n)-1)`. -/
def lua_pop (n : Int) (s : LuaState) : LuaState :=
  lua_settop (-n - 1) s

/-- `LuaWrapper::pop`: the source is `lua_pop( m_luastate, -1 )`. -/
def pop (s : LuaState) : LuaState :=
  lua_pop (-1) s

/-- `LuaWrapper::pushNumber` (`lua_pushnumber`). -/
def pushNumber (n : Int) (s : LuaState) : LuaState :=
  { s with stack := .number n :: s.stack }

/-- `LuaWrapper::pushInt` (`lua_pushinteger`; integers live in the number
kind). -/
def pushInt (n : Int) (s : LuaState) : LuaState :=
  { s with stack := .number n :: s.stack }

/-- `LuaWrapper::pushString` (`lua_pushstring`). -/
def pushString (t : String) (s : LuaState) : LuaState :=
  { s with stack := .str t :: s.stack }

/-- `LuaWrapper::pushNil` (`lua_pushnil`). -/
def pushNil (s : LuaState) : LuaState :=
  { s with stack := .nil :: s.stack }

/-- `LuaWrapper::pushLUserdata` (`lua_pushlightuserdata`). -/
def pushLUserdata (p : Nat) (s : LuaState) : LuaState :=
  { s with stack := .lightuserdata p :: s.stack }

/-- Accumulate the value of a run of decimal digits; any other character
makes the parse fail. -/
def decAux : List Char → Nat → Option Nat
  | [], acc => some acc
  | c :: cs, acc =>
    if c.isDigit then decAux cs (acc * 10 + (c.toNat - 48)) else none

/-- Parse a nonempty all-digit character list as a decimal natural. -/
def parseDec : List Char → Option Nat
  | [] => none
  | l => decAux l 0

/-- The decimal-integer fragment of Lua's string-to-number coercion
(`luaO_str2d` via `strtod`). -/
def str2num (t : String) : Option Int :=
  match t.data with
  | '-' :: cs => (parseDec cs).map (fun n => -(n : Int))
  | cs => (parseDec cs).map Int.ofNat

/-- `lua_isnumber`: true for numbers and for strings convertible to a
number. -/
def lua_isnumber (v : Value) : Bool :=
  match v with
  | .number _ => true
  | .str t => (str2num t).isSome
  | _ => false

/-- `lua_tonumber`: the number itself, a convertible string's value, and 0
for everything else. -/
def lua_tonumber (v : Value) : Int :=
  match v with
  | .number n => n
  | .str t => (str2num t).getD 0
  | _ => 0

/-- `lua_tointeger` (numbers are modelled integral, so this agrees with
`lua_tonumber`). -/
def lua_tointeger (v : Value) : Int :=
  lua_tonumber v

/-- `lua_tostring`: strings convert to themselves, numbers to their decimal
text, everything else yields NULL (`none`). -/
def lua_tostringOpt (v : Value) : Option String :=
  match v with
  | .str t => some t
  | .number n => some (toString n)
  | _ => none

/-- `lua_isstring`: true exactly when `lua_tostring` succeeds. -/
def lua_isstring (v : Value) : Bool :=
  (lua_tostringOpt v).isSome

/-- `lua_isuserdata`: true for full and light userdata. -/
def lua_isuserdata (v : Value) : Bool :=
  match v with
  | .userdata _ => true
  | .lightuserdata _ => true
  | _ => false

/-- `lua_isfunction` on a (possibly non-valid) index. -/
def lua_isfunction (v : Option Value) : Bool :=
  match v with
  | some (.func _) => true
  | _ => false

/-- `lua_istable` on a (possibly non-valid) index. -/
def lua_istable (v : Option Value) : Bool :=
  match v with
  | some (.table _) => true
  | _ => false

/-- `lua_isnil` on a (possibly non-valid) index. -/
def lua_isnilAt (v : Option Value) : Bool :=
  match v with
  | some .nil => true
  | _ => false

/-- Message raised by `popInt` and `popNumber` on a type mismatch. -/
def errNumberMsg : String :=
  "ERROR: C-Lua stack value type mismatch (should be a number)!"

/-- Message raised by `popString` on a type mismatch. -/
def errStringMsg : String :=
  "ERROR: C-Lua stack value type mismatch (should be a string)!"

/-- Message raised by `popUserdata` on a type mismatch. -/
def errUserdataMsg : String :=
  "ERROR: C-Lua stack value type mismatch (should be userdata)!"

/-- `LuaWrapper::popInt`: `lua_isnumber` check (else `luaL_error`), then
`lua_tointeger` and `lua_pop(L, 1)`. -/
def popInt (s : LuaState) : Except String (Int × LuaState) :=
  match s.stack with
  | v :: rest =>
    if lua_isnumber v then .ok (lua_tointeger v, { s with stack := rest })
    else .error errNumberMsg
  | [] => .error errNumberMsg

/-- `LuaWrapper::popNumber`: `lua_isnumber` check, then `lua_tonumber` and
`lua_pop(L, 1)`. -/
def popNumber (s : LuaState) : Except String (Int × LuaState) :=
  match s.stack with
  | v :: rest =>
    if lua_isnumber v then .ok (lua_tonumber v, { s with stack := rest })
    else .error errNumberMsg
  | [] => .error errNumberMsg

/-- `LuaWrapper::popString`: `lua_isstring` check, then `lua_tostring` and
`lua_pop(L, 1)`. -/
def popString (s : LuaState) : Except String (String × LuaState) :=
  match s.stack with
  | v :: rest =>
    match lua_tostringOpt v with
    | some t => .ok (t, { s with stack := rest })
    | none => .error errStringMsg
  | [] => .error errStringMsg

/-- `LuaWrapper::popUserdata`: `lua_isuserdata` check, then `lua_touserdata`
and `lua_pop(L, 1)`. -/
def popUserdata (s : LuaState) : Except String (Nat × LuaState) :=
  match s.stack with
  | .userdata p :: rest => .ok (p, { s with stack := rest })
  | .lightuserdata p :: rest => .ok (p, { s with stack := rest })
  | _ => .error errUserdataMsg

/-- `LuaWrapper::isNil`: `lua_isnil` at `index`, a pure query. -/
def isNil (index : Int) (s : LuaState) : Bool :=
  lua_isnilAt (getValue s.stack index)

/-! Tables.  Lua's raw (primitive) equality, used when indexing a table:
structural on scalar kinds, reference equality on tables (two table values
in this model are distinct heap objects, so table-valued keys never
compare equal — the wrapper only ever indexes with string and integer
keys). -/

/-- Lua raw equality of two values. -/
def rawEq : Value → Value → Bool
  | .nil, .nil => true
  | .boolean a, .boolean b => a == b
  | .lightuserdata a, .lightuserdata b => a == b
  | .number a, .number b => a == b
  | .str a, .str b => a == b
  | .func a, .func b => a == b
  | .userdata a, .userdata b => a == b
  | .thread a, .thread b => a == b
  | _, _ => false

/-- The engine's `ttisnil` check on a value. -/
def isNilValue : Value → Bool
  | .nil => true
  | _ => false

/-- Raw table read: the value stored under `k`, nil when absent. -/
def tableGet (t : List (Value × Value)) (k : Value) : Value :=
  ((t.find? (fun p => rawEq p.1 k)).map (fun p => p.2)).getD .nil

/-- Raw table write: storing nil removes the key, anything else binds it. -/
def tableSet (t : List (Value × Value)) (k v : Value) : List (Value × Value) :=
  let cleared := t.filter (fun p => ! rawEq p.1 k)
  if isNilValue v then cleared else cleared ++ [(k, v)]

/-- `lua_gettable(L, i)`: pops the key from the top and pushes `t[k]` where
`t` is the value at index `i`; raises if that value is not a table (the
wrapper's tables have no metatables, so no `__index` dispatch). -/
def lua_gettable (i : Int) (s : LuaState) : Except String LuaState :=
  match s.stack with
  | k :: rest =>
    match getValue s.stack i with
    | some (.table t) => .ok { s with stack := tableGet t k :: rest }
    | _ => .error "attempt to index a non-table value"
  | [] => .error "attempt to index a non-table value"

/-- `lua_settable(L, i)`: pops the value and the key from the top and sets
`t[k] = v` where `t` is the value at index `i` (relative to the stack with
key and value still present); a nil key raises, as in the engine. -/
def lua_settable (i : Int) (s : LuaState) : Except String LuaState :=
  match s.stack with
  | v :: k :: rest =>
    match getValue s.stack i with
    | some (.table t) =>
      if isNilValue k then .error "table index is nil"
      else
        match slotIdx s.stack i with
        | some j => .ok { s with stack := (s.stack.set j (.table (tableSet t k v))).drop 2 }
        | none => .error "attempt to index a non-table value"
    | _ => .error "attempt to index a non-table value"
  | _ => .error "attempt to index a non-table value"

/-- Message raised by `pushTableValue` when the stack top is not a table. -/
def errTableGetMsg : String :=
  "ERROR: Trying to get table value without table at top of stack!"

/-- Message raised by `setTable` when index -3 is not a table. -/
def errTableSetMsg : String :=
  "ERROR: Trying to set table without pushing key and value to stack!"

/-- `LuaWrapper::createTable` (`lua_newtable`): pushes a fresh empty table. -/
def createTable (s : LuaState) : LuaState :=
  { s with stack := .table [] :: s.stack }

/-- `LuaWrapper::pushTableValue(char* key)`: requires a table at the top
(`luaL_error` otherwise), then `lua_pushstring(key); lua_gettable(-2)`. -/
def pushTableValueStr (key : String) (s : LuaState) : Except String LuaState :=
  if lua_istable (getValue s.stack (-1)) then
    lua_gettable (-2) (pushString key s)
  else .error errTableGetMsg

/-- `LuaWrapper::pushTableValue(int index)`: requires a table at the top,
then `lua_pushinteger(index); lua_gettable(-2)`. -/
def pushTableValueInt (index : Int) (s : LuaState) : Except String LuaState :=
  if lua_istable (getValue s.stack (-1)) then
    lua_gettable (-2) (pushInt index s)
  else .error errTableGetMsg

/-- `LuaWrapper::setTable`: requires a table at index -3 (`luaL_error`
otherwise), then `lua_settable(-3)`. -/
def setTable (s : LuaState) : Except String LuaState :=
  if lua_istable (getValue s.stack (-3)) then
    lua_settable (-3) s
  else .error errTableSetMsg

/-! Globals and the call protocol. -/

/-- Read of the global table: `_G[n]`, nil when unbound.  Note that the name
is matched verbatim — `lua_getglobal(L, "io.open")` looks up the single key
`"io.open"`, it does not traverse the dot. -/
def lookupGlobal (g : List (String × Value)) (n : String) : Value :=
  ((g.find? (fun p => p.1 == n)).map (fun p => p.2)).getD .nil

/-- `LuaWrapper::getGlobal` (`lua_getglobal`): pushes `_G[name]`. -/
def getGlobal (name : String) (s : LuaState) : LuaState :=
  { s with stack := lookupGlobal s.globals name :: s.stack }

/-- Pad or truncate a call's results to exactly `n` values (what the engine
does when `nresults` is not `LUA_MULTRET`). -/
def adjustResults (rs : List Value) (n : Nat) : List Value :=
  rs.take n ++ List.replicate (n - rs.length) .nil

/-- `lua_pcall(L, nargs, nresults, 0)`: the function sits `nargs` below the
top with its arguments above it; on success (return 0) function and
arguments are replaced by exactly `nresults` results, on failure (return
`LUA_ERRRUN` = 2) by a single error value.  Calling a non-function raises a
runtime error caught by the same protected frame. -/
def lua_pcall (nargs nresults : Nat) (s : LuaState) : Int × LuaState :=
  if nargs + 1 ≤ s.stack.length then
    let args := (s.stack.take nargs).reverse
    let rest := s.stack.drop (nargs + 1)
    match s.stack[nargs]? with
    | some (.func fid) =>
      match s.funcs[fid]? with
      | some f =>
        match f args with
        | .ok rs => (0, { s with stack := (adjustResults rs nresults).reverse ++ rest })
        | .error e => (2, { s with stack := .str e :: rest })
      | none => (2, { s with stack := .str "attempt to call a nil value" :: rest })
    | _ => (2, { s with stack := .str "attempt to call a non-function value" :: rest })
  else (2, s)

/-- What `printf("%s", lua_tostring(L, i))` shows for the value at `i`. -/
def showAt (stack : List Value) (i : Int) : String :=
  match (getValue stack i).bind lua_tostringOpt with
  | some t => t
  | none => "(null)"

/-- `LuaWrapper::callFunction`: `lua_pcall(nargs, nresults, 0)`; on nonzero
status prints a diagnostic and returns 0, otherwise returns 1. -/
def callFunction (nargs nresults : Nat) (s : LuaState) : Int × LuaState :=
  let r := lua_pcall nargs nresults s
  if r.1 ≠ 0 then
    let line :=
      "Error running function " ++ showAt r.2.stack (-((nargs : Int) + 1)) ++
      ": " ++ showAt r.2.stack (-1)
    (0, { r.2 with output := r.2.output ++ [line] })
  else (1, r.2)

/-- `LuaWrapper::doesFuncExist`: `getGlobal(name)`, `lua_isfunction(-1)`,
`pop()`, and returns the flag. -/
def doesFuncExist (name : String) (s : LuaState) : Bool × LuaState :=
  let s1 := getGlobal name s
  let funcexists := lua_isfunction (getValue s1.stack (-1))
  (funcexists, pop s1)

/-- Fixed prefix of the `doFile` failure diagnostic. -/
def dofileErrPre : String := "Error running LuaWrapper::dofile doing file: "

/-- Separator of the `doFile` failure diagnostic. -/
def dofileErrMid : String := "\nerror: "

/-- `LuaWrapper::doFile`: `luaL_dofile` is the C expression
`luaL_loadfile(L, fn) || lua_pcall(L, 0, LUA_MULTRET, 0)`, whose value as a
C `||` is exactly 0 or 1.  Loading and running the file is external I/O and
script execution, abstracted as `res`: `.ok rs` means the chunk loaded and
ran, leaving all its results (`LUA_MULTRET`) on the stack; `.error e` means
load or execution failed leaving the single error value `e` on the stack.
On status 1 the wrapper prints a diagnostic built from the filename and
`lua_tostring(L, -1)`. -/
def doFile (filename : String) (res : Except String (List Value))
    (s : LuaState) : Int × LuaState :=
  match res with
  | .ok rs => (0, { s with stack := rs.reverse ++ s.stack })
  | .error e =>
    let s1 : LuaState := { s with stack := .str e :: s.stack }
    let line := dofileErrPre ++ filename ++ dofileErrMid ++ showAt s1.stack (-1) ++ "\n"
    (1, { s1 with output := s1.output ++ [line] })

/-! The reference registry (`luaL_ref` / `lua_rawgeti` / `luaL_unref`).
The registry is a raw table with integer keys; key 0 heads the free list. -/

/-- Raw read of the registry at an integer key, nil when absent. -/
def regGet (r : List (Int × Value)) (k : Int) : Value :=
  ((r.find? (fun p => p.1 == k)).map (fun p => p.2)).getD .nil

/-- Raw write of the registry: nil removes, anything else binds. -/
def regSet (r : List (Int × Value)) (k : Int) (v : Value) : List (Int × Value) :=
  let cleared := r.filter (fun p => ! (p.1 == k))
  if isNilValue v then cleared else cleared ++ [(k, v)]

/-- One step of the border search for `lua_rawlen` on the registry. -/
def regRawlenAux (r : List (Int × Value)) : Nat → Nat → Nat
  | i, 0 => i
  | i, fuel + 1 =>
    match regGet r ((i : Int) + 1) with
    | .nil => i
    | _ => regRawlenAux r (i + 1) fuel

/-- `lua_rawlen` of the registry: a border `n` with `t[n+1]` nil, found by
walking up from 1 (there are at most `r.length` bound keys). -/
def regRawlen (r : List (Int × Value)) : Nat :=
  regRawlenAux r 0 r.length

/-- `luaL_ref(L, LUA_REGISTRYINDEX)`: nil at the top is popped and yields
`LUA_REFNIL` (-1) without storing anything; otherwise the key is taken from
the free list headed at `t[0]` (reusing `t[0]` and relinking `t[0] = t[ref]`)
or freshly allocated as `rawlen + 1`, and the popped value is stored there. -/
def luaL_ref (s : LuaState) : Int × LuaState :=
  match s.stack with
  | v :: rest =>
    if isNilValue v then (-1, { s with stack := rest })
    else
      let f := lua_tointeger (regGet s.registry 0)
      if f ≠ 0 then
        let reg1 := regSet s.registry 0 (regGet s.registry f)
        (f, { s with stack := rest, registry := regSet reg1 f v })
      else
        let ref : Int := (regRawlen s.registry : Int) + 1
        (ref, { s with stack := rest, registry := regSet s.registry ref v })
  | [] => (-2, s)

/-- `luaL_unref(L, LUA_REGISTRYINDEX, ref)`: for `ref ≥ 0`, `t[ref] = t[0]`
(the entry is overwritten by the old free-list head, nil when empty) and
`t[0] = ref`. -/
def luaL_unref (ref : Int) (s : LuaState) : LuaState :=
  if 0 ≤ ref then
    let reg1 := regSet s.registry ref (regGet s.registry 0)
    { s with registry := regSet reg1 0 (.number ref) }
  else s

/-- `lua_rawgeti(L, LUA_REGISTRYINDEX, ref)`: pushes `t[ref]`. -/
def lua_rawgeti (ref : Int) (s : LuaState) : LuaState :=
  { s with stack := regGet s.registry ref :: s.stack }

/-- `LuaWrapper::pop2Ref`: `luaL_ref(L, LUA_REGISTRYINDEX)`. -/
def pop2Ref (s : LuaState) : Int × LuaState :=
  luaL_ref s

/-- `LuaWrapper::pushRef`: `lua_rawgeti` then `luaL_unref` of the same key. -/
def pushRef (refval : Int) (s : LuaState) : LuaState :=
  luaL_unref refval (lua_rawgeti refval s)

/-! The resource bridge. -/

/-- `LuaWrapper::LuaWrapperOpenFile`: classifies the mode string into
`m_status` (`"_OUTPUT"` for the w- and a-families, `"_INPUT"` for the
r-family, NULL result for anything else), then
`getGlobal("io.open"); pushString(fname); pushString(s); callFunction(2,1)`
and `popUserdata()` for the resulting handle. -/
def LuaWrapperOpenFile (fname mode : String) (s : LuaState) :
    Except String (Option Nat × LuaState) :=
  if mode = "w" ∨ mode = "wb" ∨ mode = "w+" then
    openViaEngine fname mode { s with status := some "_OUTPUT" }
  else if mode = "a" ∨ mode = "ab" ∨ mode = "a+" then
    openViaEngine fname mode { s with status := some "_OUTPUT" }
  else if mode = "r" ∨ mode = "rb" ∨ mode = "r+" then
    openViaEngine fname mode { s with status := some "_INPUT" }
  else
    .ok (none, s)
where
  /-- The engine-call tail shared by the three supported branches. -/
  openViaEngine (fname mode : String) (s1 : LuaState) :
      Except String (Option Nat × LuaState) :=
    let s2 := pushString mode (pushString fname (getGlobal "io.open" s1))
    let r := callFunction 2 1 s2
    match popUserdata r.2 with
    | .ok pr => .ok (some pr.1, pr.2)
    | .error e => .error e

/-- `LuaWrapper::LuaWrapperCloseFile`: ignores its handle argument and runs
`getGlobal("io.close"); callFunction(0, 0)`. -/
def LuaWrapperCloseFile (fp : Nat) (s : LuaState) : LuaState :=
  (callFunction 0 0 (getGlobal "io.close" s)).2

/-! Auxiliary lemmas. -/

theorem findFilterNone {α : Type} (l : List α) (p : α → Bool) :
    (l.filter (fun a => ! p a)).find? p = none := by
  induction l with
  | nil => rfl
  | cons a t ih =>
    cases hp : p a with
    | true => simpa [List.filter_cons, hp] using ih
    | false => simpa [List.filter_cons, hp, List.find?_cons, hp] using ih

theorem findFilterEq {α : Type} (l : List α) (p q : α → Bool)
    (h : ∀ a, p a = false → q a = false) :
    (l.filter p).find? q = l.find? q := by
  induction l with
  | nil => rfl
  | cons a t ih =>
    cases hp : p a with
    | true =>
      cases hq : q a <;>
        simp [List.filter_cons, hp, List.find?_cons, hq, ih]
    | false =>
      have hq := h a hp
      simp [List.filter_cons, hp, List.find?_cons, hq, ih]

theorem findAppendSingle {α : Type} (l : List α) (x : α) (q : α → Bool)
    (hx : q x = false) : (l ++ [x]).find? q = l.find? q := by
  rw [List.find?_append]
  cases h : l.find? q <;> simp [List.find?_cons, hx]

theorem findFalse {α : Type} (l : List α) : l.find? (fun _ => false) = none := by
  induction l with
  | nil => rfl
  | cons a t ih => simpa [List.find?_cons] using ih

theorem tableGet_tableSet_self (t : List (Value × Value)) (k v : Value)
    (hk : rawEq k k = true) : tableGet (tableSet t k v) k = v := by
  unfold tableGet tableSet
  cases hv : isNilValue v with
  | true =>
    have : v = .nil := by cases v <;> simp_all [isNilValue]
    subst this
    simp [findFalse]
  | false =>
    rw [if_neg (by simp [hv])]
    rw [List.find?_append, findFilterNone]
    simp [List.find?_cons, hk]

theorem regGet_regSet_self (r : List (Int × Value)) (k : Int) (v : Value) :
    regGet (regSet r k v) k = v := by
  unfold regGet regSet
  cases hv : isNilValue v with
  | true =>
    have : v = .nil := by cases v <;> simp_all [isNilValue]
    subst this
    simp [findFalse]
  | false =>
    rw [if_neg (by simp [hv])]
    rw [List.find?_append, findFilterNone]
    simp [List.find?_cons]

theorem regGet_regSet_ne (r : List (Int × Value)) (k k2 : Int) (v : Value)
    (hne : k2 ≠ k) : regGet (regSet r k v) k2 = regGet r k2 := by
  unfold regGet regSet
  have hdrop : (r.filter (fun p => ! (p.1 == k))).find? (fun p => p.1 == k2) =
      r.find? (fun p => p.1 == k2) := by
    apply findFilterEq
    intro a ha
    have : a.1 = k := by simpa using ha
    simp [this, hne.symm]
  cases hv : isNilValue v with
  | true => simp [hdrop]
  | false =>
    rw [if_neg (by simp [hv])]
    rw [findAppendSingle _ _ _ (by simp [hne.symm]), hdrop]

theorem getValue_neg1 (a : Value) (l : List Value) :
    getValue (a :: l) (-1) = some a := by
  simp [getValue, slotIdx]

theorem getValue_neg2 (a b : Value) (l : List Value) :
    getValue (a :: b :: l) (-2) = some b := by
  simp [getValue, slotIdx]

theorem getValue_neg3 (a b c : Value) (l : List Value) :
    getValue (a :: b :: c :: l) (-3) = some c := by
  simp [getValue, slotIdx]

theorem slotIdx_neg3 (a b c : Value) (l : List Value) :
    slotIdx (a :: b :: c :: l) (-3) = some 2 := by
  simp [slotIdx]

/-! The claims. -/

/-- Claim C1: the claim says `pop()` removes exactly the top value, leaving
every value below unchanged and decreasing the depth by one.  The code calls
`lua_pop(L, -1)`, i.e. `lua_settop(L, 0)`, which empties the whole stack:
on the two-value stack `[1, 2]` a single `pop()` leaves depth 0, not the
depth-1 stack `[1]` the claim requires. -/
theorem claim_C1_pop_clears_stack :
    (pop { initState with stack := [.number 2, .number 1] }).stack = []
    ∧ (pop { initState with stack := [.number 2, .number 1] }).stack ≠ [.number 1] := by
  constructor
  · rfl
  · simp [pop, lua_pop, lua_settop, initState]

/-- Claim C2, counterexample: with the string `"7"` (tag: string, not
number) at the top, `popInt` does not fail with a type mismatch as the
claim requires — `lua_isnumber` accepts the convertible string, so the pop
succeeds and returns the converted integer 7. -/
theorem claim_C2_counterexample :
    popInt { initState with stack := [.str "7"] } = .ok (7, initState) := by
  rfl

/-- Claim C2 as amended: each typed pop checks convertibility, not the tag —
the number check accepts numbers and numeric strings, the string check
accepts strings and numbers, the userdata check accepts full and light
userdata.  On a non-convertible top value the pop fails with the
type-mismatch error naming the expected kind and returns no value; on a
convertible top value it converts, removes exactly one value, and returns
the converted value. -/
theorem claim_C2_amended (s : LuaState) (v : Value) (rest : List Value)
    (hs : s.stack = v :: rest) :
    (lua_isnumber v = false →
      popInt s = .error errNumberMsg ∧ popNumber s = .error errNumberMsg)
    ∧ (lua_isnumber v = true →
      popInt s = .ok (lua_tointeger v, { s with stack := rest })
      ∧ popNumber s = .ok (lua_tonumber v, { s with stack := rest }))
    ∧ (lua_isstring v = false → popString s = .error errStringMsg)
    ∧ (∀ t, lua_tostringOpt v = some t →
      popString s = .ok (t, { s with stack := rest }))
    ∧ (lua_isuserdata v = false → popUserdata s = .error errUserdataMsg)
    ∧ (lua_isuserdata v = true →
      ∃ p, (v = .lightuserdata p ∨ v = .userdata p)
        ∧ popUserdata s = .ok (p, { s with stack := rest })) := by
  obtain ⟨st, gl, rg, fn, sta, ou⟩ := s
  simp only [LuaState.mk.injEq] at hs ⊢
  subst hs
  refine ⟨?_, ?_, ?_, ?_, ?_, ?_⟩
  · intro h
    simp [popInt, popNumber, h]
  · intro h
    simp [popInt, popNumber, h]
  · intro h
    cases hto : lua_tostringOpt v with
    | none => simp [popString, hto]
    | some t =>
      rw [lua_isstring, hto] at h
      simp at h
  · intro t ht
    simp [popString, ht]
  · intro h
    cases v <;> simp_all [lua_isuserdata, popUserdata]
  · intro h
    cases v <;> simp_all [lua_isuserdata, popUserdata]

/-- Claim C2, witness for the amended claim at concrete inputs: a boolean
top makes `popInt` fail with the number mismatch error, a table top makes
`popString` fail with the string mismatch error, and a number top makes
`popInt` succeed with that number after removing it. -/
theorem claim_C2_witness :
    popInt { initState with stack := [.boolean true] } = .error errNumberMsg
    ∧ popString { initState with stack := [.table []] } = .error errStringMsg
    ∧ popInt { initState with stack := [.number 5] } = .ok (5, initState) := by
  refine ⟨?_, ?_, ?_⟩
  · exact ((claim_C2_amended _ (.boolean true) [] rfl).1 rfl).1
  · exact (claim_C2_amended _ (.table []) [] rfl).2.2.1 rfl
  · exact ((claim_C2_amended _ (.number 5) [] rfl).2.1 rfl).1

/-- Claim C3: the claim says `doesFuncExist` returns false for an unbound
name and always restores stack balance.  The lookup-and-test part is right
(it returns false), but the balancing `pop()` clears the whole stack (see
C1): starting from depth 1 the call ends at depth 0, not depth 1. -/
theorem claim_C3_doesFuncExist_unbalanced :
    (doesFuncExist "nonexistent" { initState with stack := [.number 7] }).1 = false
    ∧ (doesFuncExist "nonexistent" { initState with stack := [.number 7] }).2.stack = []
    ∧ (doesFuncExist "nonexistent" { initState with stack := [.number 7] }).2.stack.length
      ≠ ({ initState with stack := [.number 7] } : LuaState).stack.length := by
  refine ⟨rfl, rfl, ?_⟩
  have h2 : (doesFuncExist "nonexistent"
      { initState with stack := [.number 7] }).2.stack = [] := rfl
  rw [h2]
  simp

/-- With the function and its `args` (in push order) on top of `rest`, a
protected call resolves the function, applies it to the arguments, and
either replaces function and arguments by the results adjusted to
`nres` values, or by the single error value. -/
theorem lua_pcall_spec (s : LuaState) (args rest : List Value) (fid : Nat)
    (f : List Value → Except String (List Value)) (nres : Nat)
    (hs : s.stack = args.reverse ++ .func fid :: rest)
    (hf : s.funcs[fid]? = some f) :
    lua_pcall args.length nres s =
      match f args with
      | .ok rs => (0, { s with stack := (adjustResults rs nres).reverse ++ rest })
      | .error e => (2, { s with stack := .str e :: rest }) := by
  have hlen : args.length + 1 ≤ s.stack.length := by
    rw [hs]
    simp only [List.length_append, List.length_reverse, List.length_cons]
    omega
  have htake : s.stack.take args.length = args.reverse := by
    rw [hs]
    exact List.take_left' (List.length_reverse args)
  have hget : s.stack[args.length]? = some (.func fid) := by
    rw [hs, List.getElem?_append_right (by simp)]
    simp
  have hdrop : s.stack.drop (args.length + 1) = rest := by
    rw [hs, show args.reverse ++ Value.func fid :: rest
        = (args.reverse ++ [Value.func fid]) ++ rest by simp]
    exact List.drop_left' (by simp)
  unfold lua_pcall
  rw [if_pos hlen]
  simp only [htake, hget, hdrop, hf, List.reverse_reverse]

/-- Claim C4: with the function value and its arguments pushed, a successful
`callFunction(nargs, nresults)` returns the success flag 1 and leaves
exactly `nresults` values above the prior stack contents (depth grows by
exactly `nresults` relative to the depth before function and arguments were
pushed); a failing call returns 0 and leaves exactly one error-descriptor
value on the stack, raising nothing further. -/
theorem claim_C4_callFunction (s : LuaState) (args rest : List Value)
    (fid : Nat) (f : List Value → Except String (List Value)) (nres : Nat)
    (hs : s.stack = args.reverse ++ .func fid :: rest)
    (hf : s.funcs[fid]? = some f) :
    (∀ rs, f args = .ok rs →
      callFunction args.length nres s =
        (1, { s with stack := (adjustResults rs nres).reverse ++ rest })
      ∧ ((adjustResults rs nres).reverse ++ rest).length = rest.length + nres)
    ∧ (∀ e, f args = .error e →
      (callFunction args.length nres s).1 = 0
      ∧ (callFunction args.length nres s).2.stack = .str e :: rest) := by
  have hp := lua_pcall_spec s args rest fid f nres hs hf
  constructor
  · intro rs hrs
    rw [hrs] at hp
    constructor
    · unfold callFunction
      rw [hp]
      simp
    · simp [adjustResults]
      omega
  · intro e hre
    rw [hre] at hp
    unfold callFunction
    rw [hp]
    simp

/-- Claim C4, witness: calling function 0 (which returns two numbers 9, 10)
with one argument and requesting one result succeeds with flag 1 and leaves
exactly the single adjusted result 9 on the emptied frame. -/
theorem claim_C4_witness :
    callFunction 1 1
        { initState with
            stack := [.number 3, .func 0]
            funcs := [fun _ => .ok [.number 9, .number 10]] } =
      (1, { initState with
              stack := [.number 9]
              funcs := [fun _ => .ok [.number 9, .number 10]] }) := by
  exact ((claim_C4_callFunction
      { initState with
          stack := [.number 3, .func 0]
          funcs := [fun _ => .ok [.number 9, .number 10]] }
      [.number 3] [] 0 (fun _ => .ok [.number 9, .number 10]) 1 rfl rfl).1
    [.number 9, .number 10] rfl).1

/-- Claim C5: `doFile` returns 0 on success and 1 on failure; on failure the
error value is left exposed at the stack top and a diagnostic line is
emitted that contains both the file path and the engine-supplied error
text. -/
theorem claim_C5_doFile (filename : String) (res : Except String (List Value))
    (s : LuaState) :
    ((doFile filename res s).1 = 0 ∨ (doFile filename res s).1 = 1)
    ∧ (∀ rs, res = .ok rs → (doFile filename res s).1 = 0)
    ∧ (∀ e, res = .error e →
      (doFile filename res s).1 = 1
      ∧ (doFile filename res s).2.stack = .str e :: s.stack
      ∧ ∃ line, (doFile filename res s).2.output = s.output ++ [line]
          ∧ (∃ a b, line = a ++ (filename ++ b))
          ∧ (∃ a b, line = a ++ (e ++ b))) := by
  cases res with
  | ok rs =>
    refine ⟨Or.inl rfl, fun _ _ => rfl, fun e he => by simp at he⟩
  | error e0 =>
    have hshow : showAt (Value.str e0 :: s.stack) (-1) = e0 := by
      simp [showAt, getValue_neg1, lua_tostringOpt]
    refine ⟨Or.inr rfl, fun rs hrs => by simp at hrs, fun e he => ?_⟩
    have he0 : e0 = e := by
      simpa using he
    subst he0
    refine ⟨rfl, rfl, ?_⟩
    refine ⟨dofileErrPre ++ filename ++ dofileErrMid
        ++ showAt (Value.str e0 :: s.stack) (-1) ++ "\n", rfl, ?_, ?_⟩
    · exact ⟨dofileErrPre, dofileErrMid ++ showAt (Value.str e0 :: s.stack) (-1) ++ "\n",
        by simp [String.append_assoc]⟩
    · refine ⟨dofileErrPre ++ filename ++ dofileErrMid, "\n", ?_⟩
      rw [hshow]
      simp [String.append_assoc]

/-- Claim C5, witness: a failing load of `"missing.script"` returns status
1, leaves the error text at the stack top, and logs a diagnostic containing
the path and the message. -/
theorem claim_C5_witness :
    (doFile "missing.script" (.error "cannot open missing.script") initState).1 = 1
    ∧ (doFile "missing.script" (.error "cannot open missing.script")
        initState).2.stack = [.str "cannot open missing.script"] := by
  have h := (claim_C5_doFile "missing.script"
      (.error "cannot open missing.script") initState).2.2
      "cannot open missing.script" rfl
  exact ⟨h.1, h.2.1⟩

/-- Claim C6, counterexample: the claim quantifies over every stack-top
value `v`, but for `v = nil` redemption is not single-use.  `pop2Ref` pops
nil and returns `LUA_REFNIL` (-1) without storing anything; `pushRef (-1)`
pushes nil — a value equal to `v` — and a second `pushRef (-1)` pushes nil
again, reproducing `v`. -/
theorem claim_C6_counterexample :
    (pop2Ref { initState with stack := [Value.nil] }).1 = -1
    ∧ (pushRef (-1) (pop2Ref { initState with stack := [Value.nil] }).2).stack
      = [Value.nil]
    ∧ (pushRef (-1)
        (pushRef (-1) (pop2Ref { initState with stack := [Value.nil] }).2)).stack
      = [Value.nil, Value.nil] :=
  ⟨rfl, rfl, rfl⟩

/-- Claim C6 as amended: for every NON-nil stack-top value `v`, and with the
registry free list empty (no entry at key 0, the state before any
unref traffic), `pop2Ref` removes exactly `v` and returns a key `k`;
`pushRef k` pushes a value equal to `v` and immediately evicts the registry
entry for `k`; a second `pushRef k` pushes nil, which is not `v` — so for
non-nil values redemption is single-use. -/
theorem claim_C6_amended (s : LuaState) (v : Value) (rest : List Value)
    (hs : s.stack = v :: rest) (hv : v ≠ .nil)
    (hfree : regGet s.registry 0 = .nil) :
    (pop2Ref s).2.stack = rest
    ∧ (pushRef (pop2Ref s).1 (pop2Ref s).2).stack = v :: rest
    ∧ regGet (pushRef (pop2Ref s).1 (pop2Ref s).2).registry (pop2Ref s).1 = .nil
    ∧ (pushRef (pop2Ref s).1 (pushRef (pop2Ref s).1 (pop2Ref s).2)).stack
      = .nil :: v :: rest
    ∧ Value.nil ≠ v := by
  have hnil : isNilValue v = false := by
    cases v <;> simp_all [isNilValue]
  set k : Int := (regRawlen s.registry : Int) + 1 with hkdef
  have hk0 : k ≠ 0 := by
    omega
  have hknonneg : (0 : Int) ≤ k := by
    omega
  set reg1 := regSet s.registry k v with hreg1
  have hstep : pop2Ref s = (k, { s with stack := rest, registry := reg1 }) := by
    unfold pop2Ref luaL_ref
    rw [hs]
    simp only [hnil, Bool.false_eq_true, if_false, hfree]
    simp [lua_tointeger, lua_tonumber, hkdef, hreg1]
  rw [hstep]
  have hget1 : regGet reg1 k = v := regGet_regSet_self _ _ _
  have hget0 : regGet reg1 0 = .nil := by
    rw [hreg1, regGet_regSet_ne _ _ _ _ (Ne.symm hk0), hfree]
  have e1 : pushRef k { s with stack := rest, registry := reg1 } =
      { s with
          stack := v :: rest
          registry := regSet (regSet reg1 k .nil) 0 (.number k) } := by
    unfold pushRef lua_rawgeti luaL_unref
    rw [if_pos hknonneg]
    simp [hget1, hget0]
  have e2 : regGet (regSet (regSet reg1 k .nil) 0 (.number k)) k = .nil := by
    rw [regGet_regSet_ne _ _ _ _ hk0, regGet_regSet_self]
  refine ⟨rfl, ?_, ?_, ?_, fun h => hv h.symm⟩
  · rw [e1]
  · rw [e1]
    exact e2
  · rw [e1]
    unfold pushRef lua_rawgeti luaL_unref
    rw [if_pos hknonneg]
    simp [e2]

/-- Claim C6, witness for the amended claim: detaching the number 5 from a
fresh state and reattaching its key restores the stack `[5]`; the second
reattach of the same key pushes nil instead, giving `[nil, 5]`. -/
theorem claim_C6_witness :
    (pushRef (pop2Ref { initState with stack := [.number 5] }).1
        (pop2Ref { initState with stack := [.number 5] }).2).stack = [.number 5]
    ∧ (pushRef (pop2Ref { initState with stack := [.number 5] }).1
        (pushRef (pop2Ref { initState with stack := [.number 5] }).1
          (pop2Ref { initState with stack := [.number 5] }).2)).stack
      = [.nil, .number 5] := by
  have h := claim_C6_amended { initState with stack := [.number 5] }
    (.number 5) [] rfl (by simp) rfl
  exact ⟨h.2.1, h.2.2.2.1⟩

/-- Claim C7: for every kind with both a push and a pop (number, integer,
string, light userdata), pushing a value and popping it back returns a value
equal to the original and restores the state — in particular the stack depth
— exactly (round-trip law). -/
theorem claim_C7_roundtrip (s : LuaState) (n : Int) (t : String) (p : Nat) :
    popNumber (pushNumber n s) = .ok (n, s)
    ∧ popInt (pushInt n s) = .ok (n, s)
    ∧ popString (pushString t s) = .ok (t, s)
    ∧ popUserdata (pushLUserdata p s) = .ok (p, s) :=
  ⟨rfl, rfl, rfl, rfl⟩

theorem rawEq_str_self (a : String) : rawEq (.str a) (.str a) = true := by
  simp [rawEq]

theorem rawEq_number_self (n : Int) : rawEq (.number n) (.number n) = true := by
  simp [rawEq]

/-- Claim C8: the table round trip — `createTable(); push(key); push(value);
setTable(); pushTableValue(key)` — leaves `value` at the stack top with the
table staying in the position it started (one below the looked-up value,
directly above the rest of the stack), for string keys and for integer
keys; and every table operation first checks that the required table is
present (top of stack for `pushTableValue`, three below top for `setTable`),
failing with the contract-violation error otherwise.  (The value pushed by
`push(value)` is modelled as consing `v` onto the stack, which is exactly
what each typed push does to its argument.) -/
theorem claim_C8_table_roundtrip :
    (∀ (s : LuaState) (key : String) (v : Value),
      (setTable
          { pushString key (createTable s) with
              stack := v :: (pushString key (createTable s)).stack }).bind
        (pushTableValueStr key) =
      .ok { s with stack := v :: .table (tableSet [] (.str key) v) :: s.stack })
    ∧ (∀ (s : LuaState) (i : Int) (v : Value),
      (setTable
          { pushInt i (createTable s) with
              stack := v :: (pushInt i (createTable s)).stack }).bind
        (pushTableValueInt i) =
      .ok { s with stack := v :: .table (tableSet [] (.number i) v) :: s.stack })
    ∧ (∀ (s : LuaState) (key : String),
      lua_istable (getValue s.stack (-1)) = false →
      pushTableValueStr key s = .error errTableGetMsg)
    ∧ (∀ (s : LuaState) (i : Int),
      lua_istable (getValue s.stack (-1)) = false →
      pushTableValueInt i s = .error errTableGetMsg)
    ∧ (∀ (s : LuaState),
      lua_istable (getValue s.stack (-3)) = false →
      setTable s = .error errTableSetMsg) := by
  refine ⟨?_, ?_, ?_, ?_, ?_⟩
  · intro s key v
    have h4 : setTable
        { pushString key (createTable s) with
            stack := v :: (pushString key (createTable s)).stack } =
        .ok { s with stack := .table (tableSet [] (.str key) v) :: s.stack } := by
      simp [setTable, pushString, createTable, lua_settable, lua_istable,
        getValue_neg3, slotIdx_neg3, isNilValue]
    rw [h4]
    show pushTableValueStr key _ = _
    simp [pushTableValueStr, lua_istable, getValue_neg1, pushString,
      lua_gettable, getValue_neg2,
      tableGet_tableSet_self _ _ _ (rawEq_str_self key)]
  · intro s i v
    have h4 : setTable
        { pushInt i (createTable s) with
            stack := v :: (pushInt i (createTable s)).stack } =
        .ok { s with stack := .table (tableSet [] (.number i) v) :: s.stack } := by
      simp [setTable, pushInt, createTable, lua_settable, lua_istable,
        getValue_neg3, slotIdx_neg3, isNilValue]
    rw [h4]
    show pushTableValueInt i _ = _
    simp [pushTableValueInt, lua_istable, getValue_neg1, pushInt,
      lua_gettable, getValue_neg2,
      tableGet_tableSet_self _ _ _ (rawEq_number_self i)]
  · intro s key h
    simp [pushTableValueStr, h]
  · intro s i h
    simp [pushTableValueInt, h]
  · intro s h
    simp [setTable, h]

/-- Claim C8, witness: storing 99 under key `"k"` in a fresh table and
reading it back leaves 99 at the top with the table below; on the empty
stack both table operations fail with their contract-violation errors. -/
theorem claim_C8_witness :
    (setTable { initState with stack := [.number 99, .str "k", .table []] }).bind
        (pushTableValueStr "k") =
      .ok { initState with stack := [.number 99, .table [(.str "k", .number 99)]] }
    ∧ pushTableValueStr "k" initState = .error errTableGetMsg
    ∧ setTable initState = .error errTableSetMsg := by
  refine ⟨?_, ?_, ?_⟩
  · exact claim_C8_table_roundtrip.1 initState "k" (.number 99)
  · exact claim_C8_table_roundtrip.2.2.1 initState "k" rfl
  · exact claim_C8_table_roundtrip.2.2.2.2 initState rfl

/-- The engine-call tail of `LuaWrapperOpenFile`: when the (verbatim) global
`"io.open"` is a function that returns a single userdata handle for the
pushed name and mode, the call succeeds and the handle is popped back,
restoring the stack. -/
theorem openViaEngine_spec (fname mode : String) (s1 : LuaState) (fid : Nat)
    (f : List Value → Except String (List Value)) (p : Nat)
    (hlg : lookupGlobal s1.globals "io.open" = .func fid)
    (hf : s1.funcs[fid]? = some f)
    (hcall : f [.str fname, .str mode] = .ok [.userdata p]) :
    LuaWrapperOpenFile.openViaEngine fname mode s1 = .ok (some p, s1) := by
  have hpc : lua_pcall 2 1 (pushString mode (pushString fname (getGlobal "io.open" s1))) =
      (0, { s1 with stack := .userdata p :: s1.stack }) := by
    unfold lua_pcall
    simp only [pushString, getGlobal, hlg]
    rw [if_pos (by simp)]
    simp [hf, hcall, adjustResults]
  unfold LuaWrapperOpenFile.openViaEngine callFunction
  simp only [hpc]
  simp [popUserdata]

/-- Claim C9: `openResource` records the status tag `"_OUTPUT"` for modes
w/wb/w+/a/ab/a+ and `"_INPUT"` for r/rb/r+ before opening through the
engine's own `io.open` entry point; any other mode string yields a null
result (and changes nothing); and `closeResource` ignores its handle
argument entirely — for any two handles it behaves identically, invoking the
engine's close entry point with no arguments (the engine's current default
output). -/
theorem claim_C9_resource_modes (fname mode : String) (s : LuaState)
    (fid : Nat) (f : List Value → Except String (List Value)) (p : Nat) :
    ((mode = "w" ∨ mode = "wb" ∨ mode = "w+" ∨ mode = "a" ∨ mode = "ab" ∨ mode = "a+") →
      lookupGlobal s.globals "io.open" = .func fid →
      s.funcs[fid]? = some f →
      f [.str fname, .str mode] = .ok [.userdata p] →
      LuaWrapperOpenFile fname mode s = .ok (some p, { s with status := some "_OUTPUT" }))
    ∧ ((mode = "r" ∨ mode = "rb" ∨ mode = "r+") →
      lookupGlobal s.globals "io.open" = .func fid →
      s.funcs[fid]? = some f →
      f [.str fname, .str mode] = .ok [.userdata p] →
      LuaWrapperOpenFile fname mode s = .ok (some p, { s with status := some "_INPUT" }))
    ∧ (mode ≠ "w" → mode ≠ "wb" → mode ≠ "w+" → mode ≠ "a" → mode ≠ "ab" → mode ≠ "a+" →
       mode ≠ "r" → mode ≠ "rb" → mode ≠ "r+" →
      LuaWrapperOpenFile fname mode s = .ok (none, s))
    ∧ (∀ (fp fp2 : Nat) (s2 : LuaState),
      LuaWrapperCloseFile fp s2 = LuaWrapperCloseFile fp2 s2)
    ∧ (∀ (fp : Nat) (s2 : LuaState) (gid : Nat)
        (g : List Value → Except String (List Value)),
      lookupGlobal s2.globals "io.close" = .func gid →
      s2.funcs[gid]? = some g → g [] = .ok [] →
      LuaWrapperCloseFile fp s2 = s2) := by
  refine ⟨?_, ?_, ?_, fun _ _ _ => rfl, ?_⟩
  · intro hm hlg hf hcall
    unfold LuaWrapperOpenFile
    rcases hm with rfl | rfl | rfl | rfl | rfl | rfl
    · rw [if_pos (Or.inl rfl)]
      exact openViaEngine_spec _ _ _ _ _ _ hlg hf hcall
    · rw [if_pos (Or.inr (Or.inl rfl))]
      exact openViaEngine_spec _ _ _ _ _ _ hlg hf hcall
    · rw [if_pos (Or.inr (Or.inr rfl))]
      exact openViaEngine_spec _ _ _ _ _ _ hlg hf hcall
    · rw [if_neg (by decide), if_pos (Or.inl rfl)]
      exact openViaEngine_spec _ _ _ _ _ _ hlg hf hcall
    · rw [if_neg (by decide), if_pos (Or.inr (Or.inl rfl))]
      exact openViaEngine_spec _ _ _ _ _ _ hlg hf hcall
    · rw [if_neg (by decide), if_pos (Or.inr (Or.inr rfl))]
      exact openViaEngine_spec _ _ _ _ _ _ hlg hf hcall
  · intro hm hlg hf hcall
    unfold LuaWrapperOpenFile
    rcases hm with rfl | rfl | rfl
    · rw [if_neg (by decide), if_neg (by decide), if_pos (Or.inl rfl)]
      exact openViaEngine_spec _ _ _ _ _ _ hlg hf hcall
    · rw [if_neg (by decide), if_neg (by decide), if_pos (Or.inr (Or.inl rfl))]
      exact openViaEngine_spec _ _ _ _ _ _ hlg hf hcall
    · rw [if_neg (by decide), if_neg (by decide), if_pos (Or.inr (Or.inr rfl))]
      exact openViaEngine_spec _ _ _ _ _ _ hlg hf hcall
  · intro h1 h2 h3 h4 h5 h6 h7 h8 h9
    unfold LuaWrapperOpenFile
    rw [if_neg (by simp [h1, h2, h3]), if_neg (by simp [h4, h5, h6]),
      if_neg (by simp [h7, h8, h9])]
  · intro fp s2 gid g hlg hf hcall
    have hpc : lua_pcall 0 0 (getGlobal "io.close" s2) = (0, s2) := by
      unfold lua_pcall
      simp only [getGlobal, hlg]
      rw [if_pos (by simp)]
      simp [hf, hcall, adjustResults]
    unfold LuaWrapperCloseFile callFunction
    rw [hpc]
    simp

/-- Claim C9, witness: opening `"out.txt"` in mode `"w"` against an engine
whose `io.open` returns the userdata handle 42 records the output status
tag and returns the handle; opening with the unsupported mode `"q"` yields
the null result and an unchanged state; and closing behaves identically for
the handles 5 and 7 and runs the engine's argumentless close. -/
theorem claim_C9_witness :
    LuaWrapperOpenFile "out.txt" "w"
        { initState with
            globals := [("io.open", .func 0), ("io.close", .func 1)]
            funcs := [fun _ => .ok [.userdata 42], fun _ => .ok []] } =
      .ok (some 42,
        { initState with
            globals := [("io.open", .func 0), ("io.close", .func 1)]
            funcs := [fun _ => .ok [.userdata 42], fun _ => .ok []]
            status := some "_OUTPUT" })
    ∧ LuaWrapperOpenFile "out.txt" "q"
        { initState with
            globals := [("io.open", .func 0), ("io.close", .func 1)]
            funcs := [fun _ => .ok [.userdata 42], fun _ => .ok []] } =
      .ok (none,
        { initState with
            globals := [("io.open", .func 0), ("io.close", .func 1)]
            funcs := [fun _ => .ok [.userdata 42], fun _ => .ok []] })
    ∧ LuaWrapperCloseFile 5
        { initState with
            globals := [("io.open", .func 0), ("io.close", .func 1)]
            funcs := [fun _ => .ok [.userdata 42], fun _ => .ok []] } =
      LuaWrapperCloseFile 7
        { initState with
            globals := [("io.open", .func 0), ("io.close", .func 1)]
            funcs := [fun _ => .ok [.userdata 42], fun _ => .ok []] }
    ∧ LuaWrapperCloseFile 5
        { initState with
            globals := [("io.open", .func 0), ("io.close", .func 1)]
            funcs := [fun _ => .ok [.userdata 42], fun _ => .ok []] } =
      { initState with
          globals := [("io.open", .func 0), ("io.close", .func 1)]
          funcs := [fun _ => .ok [.userdata 42], fun _ => .ok []] } := by
  refine ⟨?_, ?_, ?_, ?_⟩
  · exact (claim_C9_resource_modes "out.txt" "w"
      { initState with
          globals := [("io.open", .func 0), ("io.close", .func 1)]
          funcs := [fun _ => .ok [.userdata 42], fun _ => .ok []] }
      0 (fun _ => .ok [.userdata 42]) 42).1 (Or.inl rfl) rfl rfl rfl
  · exact (claim_C9_resource_modes "out.txt" "q"
      { initState with
          globals := [("io.open", .func 0), ("io.close", .func 1)]
          funcs := [fun _ => .ok [.userdata 42], fun _ => .ok []] }
      0 (fun _ => .ok [.userdata 42]) 42).2.2.1 (by decide) (by decide) (by decide)
      (by decide) (by decide) (by decide) (by decide) (by decide) (by decide)
  · exact (claim_C9_resource_modes "out.txt" "w"
      { initState with
          globals := [("io.open", .func 0), ("io.close", .func 1)]
          funcs := [fun _ => .ok [.userdata 42], fun _ => .ok []] }
      0 (fun _ => .ok [.userdata 42]) 42).2.2.2.1 5 7 _
  · exact (claim_C9_resource_modes "out.txt" "w"
      { initState with
          globals := [("io.open", .func 0), ("io.close", .func 1)]
          funcs := [fun _ => .ok [.userdata 42], fun _ => .ok []] }
      0 (fun _ => .ok [.userdata 42]) 42).2.2.2.2 5 _ 1 (fun _ => .ok [])
      rfl rfl rfl

/-- Claim C10: with a table at the top and a key bound to nothing in it,
`pushTableValue(key)` does not fail: it pushes nil (net stack effect +1,
the table remaining one below), and the miss is observable via `isNil` on
the new top. -/
theorem claim_C10_missing_key_nil (s : LuaState) (t : List (Value × Value))
    (rest : List Value) (key : String)
    (hs : s.stack = .table t :: rest)
    (hmiss : tableGet t (.str key) = .nil) :
    pushTableValueStr key s = .ok { s with stack := .nil :: .table t :: rest }
    ∧ ((.nil :: .table t :: rest) : List Value).length = s.stack.length + 1
    ∧ isNil (-1) { s with stack := .nil :: .table t :: rest } = true := by
  obtain ⟨st, gl, rg, fn, sta, ou⟩ := s
  simp only [LuaState.mk.injEq] at hs ⊢
  subst hs
  refine ⟨?_, by simp, ?_⟩
  · simp [pushTableValueStr, lua_istable, getValue_neg1, pushString,
      lua_gettable, getValue_neg2, hmiss]
  · simp [isNil, getValue_neg1, lua_isnilAt]

/-- Claim C10, witness: looking up the unbound key `"missing"` in the
singleton table `{a = 1}` at the top pushes nil and reports nil at the new
top. -/
theorem claim_C10_witness :
    pushTableValueStr "missing"
        { initState with stack := [.table [(.str "a", .number 1)]] } =
      .ok { initState with stack := [.nil, .table [(.str "a", .number 1)]] }
    ∧ isNil (-1)
        { initState with stack := [.nil, .table [(.str "a", .number 1)]] } = true := by
  refine ⟨?_, ?_⟩
  · exact (claim_C10_missing_key_nil
      { initState with stack := [.table [(.str "a", .number 1)]] }
      [(.str "a", .number 1)] [] "missing" rfl rfl).1
  · exact (claim_C10_missing_key_nil
      { initState with stack := [.table [(.str "a", .number 1)]] }
      [(.str "a", .number 1)] [] "missing" rfl rfl).2.2

end LuaWrapper
